import Mathlib

/-!
Verification development for the forest-map point-collection application.
The definitions below are a shallow embedding of the JavaScript source:
PointManager (point lifecycle, per-category counters, localStorage
persistence), UserManager (daily collector identity and session metadata)
and ExportManager (CSV / GPX / JSON / GeoJSON serializers).  Browser
environment services (i18n label lookup, locale and ISO date formatting,
IEEE-double decimal rendering) are passed in as explicit function
parameters, and localStorage is modelled as an explicit key-value state.
-/

namespace ForestMap

/-- The closed set of point categories of the application. -/
inductive Category where
  | exploitation
  | clearing
  | boundary
deriving DecidableEq, Repr, Fintype

/-- The string key of a category, as used for storage keys, the JSON
export and i18n lookup. -/
def categoryKey : Category → String
  | .exploitation => "exploitation"
  | .clearing => "clearing"
  | .boundary => "boundary"

/-- The fixed iteration order used throughout the source. -/
def allCategories : List Category :=
  [Category.exploitation, Category.clearing, Category.boundary]

/-- A GPS fix as delivered by LocationTracker.getCurrentPosition. -/
structure Position where
  lat : ℚ
  lng : ℚ
  accuracy : Option ℚ
deriving DecidableEq, Repr

/-- A point record as built by createPointWithUserName. -/
structure Point where
  id : String
  type : Category
  number : ℕ
  lat : ℚ
  lng : ℚ
  accuracy : ℚ
  timestamp : ℕ
  formattedCoords : String
  notes : String
  recordedBy : String
  recordedDate : String
  sessionId : String
deriving DecidableEq, Repr

/-- Left-pad a string with zeros to the given length. -/
def padZeros (s : String) (len : ℕ) : String :=
  if s.length ≥ len then s else String.mk (List.replicate (len - s.length) '0') ++ s

/-- Model of the JavaScript toFixed(6) rendering on rationals: the value
scaled by ten to the sixth, rounded to the nearest integer, printed with
exactly six fraction digits. -/
def toFixed6 (q : ℚ) : String :=
  let n : ℤ := round (q * 1000000)
  let sign := if n < 0 then "-" else ""
  let m := n.natAbs
  sign ++ toString (m / 1000000) ++ "." ++ padZeros (toString (m % 1000000)) 6

/-- formatCoordinates from the PointManager module. -/
def formatCoordinates (lat lng : ℚ) : String :=
  toFixed6 lat ++ ", " ++ toFixed6 lng

/-- Update a category-indexed map at one category. -/
def setCat {α : Type} (f : Category → α) (c : Category) (v : α) : Category → α :=
  fun c' => if c' = c then v else f c'

/-- UI settings held by the PointManager module (currentType plus the
per-category visibility map). -/
structure Settings where
  currentType : Option Category
  visibility : Category → Bool

/-- The localStorage keys written by the PointManager module: the three
per-category point arrays, the counters record and the settings record.
A value of none models an absent key. -/
structure Storage where
  storedPoints : Category → Option (List Point)
  storedCounters : Option (Category → ℕ)
  storedSettings : Option Settings

/-- The in-memory state of the PointManager module together with its
durable storage. -/
structure PMState where
  points : Category → List Point
  counters : Category → ℕ
  settings : Settings
  storage : Storage

/-- saveToLocalStorage(type): persists the points array of the given
category and the whole counters record. -/
def saveToLocalStorage (s : PMState) (c : Category) : PMState :=
  { s with storage :=
      { s.storage with
        storedPoints := setCat s.storage.storedPoints c (some (s.points c)),
        storedCounters := some s.counters } }

/-- saveSettings: persists the settings record. -/
def saveSettings (s : PMState) : PMState :=
  { s with storage := { s.storage with storedSettings := some s.settings } }

/-- Math.max over the numbers of a list of points (used by the counter
recomputation fallback of loadFromLocalStorage; only applied to non-empty
lists there). -/
def maxPointNumber (l : List Point) : ℕ :=
  (l.map (·.number)).foldr max 0

/-- loadFromLocalStorage, run on the fresh module state of init: stored
point arrays replace the initial empty arrays; the counters record is
taken from storage when present, otherwise recomputed per category as the
maximum stored number (categories with no points keep counter zero);
settings are taken from storage when present. -/
def loadFromLocalStorage (st : Storage) : PMState :=
  let pts : Category → List Point := fun c => (st.storedPoints c).getD []
  let ctrs : Category → ℕ :=
    match st.storedCounters with
    | some ctr => ctr
    | none => fun c => if (pts c).length > 0 then maxPointNumber (pts c) else 0
  let stg : Settings :=
    match st.storedSettings with
    | some g => { currentType := g.currentType, visibility := g.visibility }
    | none => { currentType := none, visibility := fun _ => true }
  { points := pts, counters := ctrs, settings := stg, storage := st }

/-- Session metadata stored by UserManager under the per-day session key.
The fields mirror the JSON object written by storeUserName; absent
properties of a parsed object are modelled with none. -/
structure SessionData where
  userName : Option String
  startTime : Option String
  pointCount : ℕ
  lastActivity : Option String
deriving DecidableEq, Repr

/-- Update a string-keyed storage map at one key. -/
def setKey {α : Type} (f : String → Option α) (k : String) (v : Option α) :
    String → Option α :=
  fun k' => if k' = k then v else f k'

/-- The localStorage keys written by UserManager: per-day user names and
per-day session records. -/
structure UserStorage where
  userNames : String → Option String
  sessions : String → Option SessionData

/-- Drop leading whitespace characters from a character list. -/
def dropLeadingWs : List Char → List Char
  | [] => []
  | ch :: rest => if ch.isWhitespace then dropLeadingWs rest else ch :: rest

/-- Model of the JavaScript String.prototype.trim: strip whitespace from
both ends. -/
def jsTrim (s : String) : String :=
  String.mk (dropLeadingWs (dropLeadingWs s.data.reverse).reverse)

/-- hasUserNameForToday: the stored value exists and trims non-empty. -/
def hasUserNameForToday (us : UserStorage) (today : String) : Bool :=
  match us.userNames today with
  | none => false
  | some s => jsTrim s ≠ ""

/-- getStoredUserName: the raw stored value for today, or none. -/
def getStoredUserName (us : UserStorage) (today : String) : Option String :=
  us.userNames today

/-- storeUserName: trims the input; an empty trim stores nothing and
returns false; otherwise the trimmed name is stored under today and a
fresh session record with pointCount zero is written. -/
def storeUserName (us : UserStorage) (today nowIso name : String) :
    Bool × UserStorage :=
  let trimmedName := jsTrim name
  if trimmedName = "" then (false, us)
  else
    (true,
      { userNames := setKey us.userNames today (some trimmedName),
        sessions := setKey us.sessions today
          (some { userName := some trimmedName, startTime := some nowIso,
                  pointCount := 0, lastActivity := some nowIso }) })

/-- updateSessionPointCount: parses the stored session record, an absent
key parsing as the empty object, increments pointCount (an absent count
reading as zero) and refreshes lastActivity, then writes the record back. -/
def updateSessionPointCount (us : UserStorage) (today nowIso : String) :
    UserStorage :=
  let d := (us.sessions today).getD
    { userName := none, startTime := none, pointCount := 0, lastActivity := none }
  let d2 : SessionData :=
    { d with pointCount := d.pointCount + 1, lastActivity := some nowIso }
  { us with sessions := setKey us.sessions today (some d2) }

/-- The validation of the name-entry dialog (confirm disabled when the
trimmed input is empty or longer than fifty characters). -/
def nameDialogConfirmDisabled (input : String) : Bool :=
  (jsTrim input).length = 0 || (jsTrim input).length > 50

/-- isGPSAvailable: a current position exists and both coordinates are
truthy (non-zero) numbers. -/
def isGPSAvailable (gps : Option Position) : Bool :=
  match gps with
  | none => false
  | some p => p.lat ≠ 0 && p.lng ≠ 0

/-- createPointWithUserName: increments the counter of the category,
builds the point record from the current position and the identity
fields, appends it to the category sequence, persists the sequence and
the counters, and bumps the session point count. -/
def createPointWithUserName (s : PMState) (us : UserStorage) (c : Category)
    (userName : String) (pos : Position) (newId : String) (now : ℕ)
    (today nowIso : String) : Point × PMState × UserStorage :=
  let ctr := s.counters c + 1
  let p : Point :=
    { id := newId, type := c, number := ctr, lat := pos.lat, lng := pos.lng,
      accuracy := pos.accuracy.getD 0, timestamp := now,
      formattedCoords := formatCoordinates pos.lat pos.lng, notes := "",
      recordedBy := userName, recordedDate := today, sessionId := today }
  let s1 : PMState :=
    { s with counters := setCat s.counters c ctr,
             points := setCat s.points c (s.points c ++ [p]) }
  (p, saveToLocalStorage s1 c, updateSessionPointCount us today nowIso)

/-- markPoint: rejects an unknown category and an unavailable GPS fix
with a null result; otherwise resolves the collector identity (the stored
name for today, or the outcome of the name-entry prompt, whose confirm
path stores the name before resolving) and creates the point.  The
promptOutcome argument is the resolved value of the prompt: none models a
dismissed dialog. -/
def markPoint (s : PMState) (us : UserStorage) (typeArg : Option Category)
    (gps : Option Position) (promptOutcome : Option String) (newId : String)
    (now : ℕ) (today nowIso : String) :
    Option Point × PMState × UserStorage :=
  match typeArg with
  | none => (none, s, us)
  | some c =>
    if isGPSAvailable gps then
      match gps with
      | none => (none, s, us)
      | some pos =>
        if hasUserNameForToday us today then
          match getStoredUserName us today with
          | none => (none, s, us)
          | some name =>
            if name = "" then (none, s, us)
            else
              let r := createPointWithUserName s us c name pos newId now today nowIso
              (some r.1, r.2)
        else
          match promptOutcome with
          | none => (none, s, us)
          | some name =>
            let us1 := (storeUserName us today nowIso name).2
            if name = "" then (none, s, us1)
            else
              let r := createPointWithUserName s us1 c name pos newId now today nowIso
              (some r.1, r.2)
    else (none, s, us)

/-- findIndex over a point list, as used by deletePoint. -/
def findIndex (pred : Point → Bool) : List Point → Option ℕ
  | [] => none
  | p :: rest => if pred p then some 0 else (findIndex pred rest).map (· + 1)

/-- splice(index, 1): removes the element at the given index. -/
def spliceOne : List Point → ℕ → List Point
  | [], _ => []
  | _ :: rest, 0 => rest
  | p :: rest, n + 1 => p :: spliceOne rest n

/-- deletePoint: an unknown category returns false; otherwise the first
point with the given id is removed and the change persisted (returning
true), and a missing id returns false without any change.  The counters
are never touched. -/
def deletePoint (s : PMState) (pointId : String) (typeArg : Option Category) :
    Bool × PMState :=
  match typeArg with
  | none => (false, s)
  | some c =>
    match findIndex (fun p => p.id == pointId) (s.points c) with
    | none => (false, s)
    | some i =>
      let s1 := { s with points := setCat s.points c (spliceOne (s.points c) i) }
      (true, saveToLocalStorage s1 c)

/-- One iteration of the clearing loop of performClearAll: empties the
category, zeroes its counter and persists. -/
def clearType (s : PMState) (c : Category) : PMState :=
  let s1 := { s with points := setCat s.points c [],
                     counters := setCat s.counters c 0 }
  saveToLocalStorage s1 c

/-- performClearAll: clears and persists every category in the fixed
order, then resets the active category selection and persists the
settings. -/
def performClearAll (s : PMState) : PMState :=
  let s1 := allCategories.foldl clearType s
  let s2 := { s1 with settings := { s1.settings with currentType := none } }
  saveSettings s2

/-- getPointsByType returns the points array of the category (the in-
memory value; reference-level aliasing is studied in the RefModel
section below). -/
def getPointsByType (s : PMState) (c : Category) : List Point :=
  s.points c

/-- getCountByType. -/
def getCountByType (s : PMState) (c : Category) : ℕ :=
  (s.points c).length

/-- Total point count over the three categories, as computed by
updateShareButton, clearAllPoints and showExportDialog. -/
def totalCount (s : PMState) : ℕ :=
  getCountByType s .exploitation + getCountByType s .clearing +
    getCountByType s .boundary

/-- An input record for one createPointWithUserName call: the category
together with the environment values read during the call. -/
structure CreateInput where
  cat : Category
  userName : String
  pos : Position
  newId : String
  now : ℕ
  today : String
  nowIso : String

/-- Run a sequence of successful point creations, collecting the returned
points. -/
def runCreates : PMState → UserStorage → List CreateInput →
    List Point × PMState × UserStorage
  | s, _us, [] => ([], s, _us)
  | s, us, i :: rest =>
    let r := createPointWithUserName s us i.cat i.userName i.pos i.newId
      i.now i.today i.nowIso
    let rr := runCreates r.2.1 r.2.2 rest
    (r.1 :: rr.1, rr.2)

/-- A JSON value tree, the shape handed to JSON.stringify by the JSON and
GeoJSON exporters. -/
inductive Json where
  | str (s : String)
  | num (q : ℚ)
  | arr (elems : List Json)
  | obj (fields : List (String × Json))

/-- Lookup of a property in a JSON object field list (first match). -/
def jsonLookup : List (String × Json) → String → Option Json
  | [], _ => none
  | (k, v) :: rest, key => if k = key then some v else jsonLookup rest key

/-- Read a JSON string. -/
def asStr : Json → Option String
  | .str s => some s
  | _ => none

/-- Read a JSON number. -/
def asNum : Json → Option ℚ
  | .num q => some q
  | _ => none

/-- Read a JSON array. -/
def asArr : Json → Option (List Json)
  | .arr xs => some xs
  | _ => none

/-- Read a JSON object. -/
def asObj : Json → Option (List (String × Json))
  | .obj fs => some fs
  | _ => none

/-- Inverse of categoryKey. -/
def parseCategory (s : String) : Option Category :=
  if s = "exploitation" then some .exploitation
  else if s = "clearing" then some .clearing
  else if s = "boundary" then some .boundary
  else none

/-- Read a natural number from a JSON number. -/
def readNat (j : Json) : Option ℕ :=
  (asNum j).map (fun q => q.num.toNat)

/-- The per-point entry of the Generic JSON export: all point fields
spread in creation order, followed by the resolved typeName and
typeDescription labels. -/
def pointJson (t : String → String) (c : Category) (p : Point) : Json :=
  .obj [("id", .str p.id), ("type", .str (categoryKey p.type)),
        ("number", .num p.number), ("lat", .num p.lat), ("lng", .num p.lng),
        ("accuracy", .num p.accuracy), ("timestamp", .num p.timestamp),
        ("formattedCoords", .str p.formattedCoords), ("notes", .str p.notes),
        ("recordedBy", .str p.recordedBy),
        ("recordedDate", .str p.recordedDate),
        ("sessionId", .str p.sessionId),
        ("typeName", .str (t (categoryKey c))),
        ("typeDescription", .str (t (categoryKey c ++ "Desc")))]

/-- Reconstruct a Point from its Generic JSON entry. -/
def readPoint (j : Json) : Option Point := do
  let fs ← asObj j
  let id ← jsonLookup fs "id" >>= asStr
  let tyS ← jsonLookup fs "type" >>= asStr
  let ty ← parseCategory tyS
  let number ← jsonLookup fs "number" >>= readNat
  let lat ← jsonLookup fs "lat" >>= asNum
  let lng ← jsonLookup fs "lng" >>= asNum
  let accuracy ← jsonLookup fs "accuracy" >>= asNum
  let timestamp ← jsonLookup fs "timestamp" >>= readNat
  let formattedCoords ← jsonLookup fs "formattedCoords" >>= asStr
  let notes ← jsonLookup fs "notes" >>= asStr
  let recordedBy ← jsonLookup fs "recordedBy" >>= asStr
  let recordedDate ← jsonLookup fs "recordedDate" >>= asStr
  let sessionId ← jsonLookup fs "sessionId" >>= asStr
  pure { id := id, type := ty, number := number, lat := lat, lng := lng,
         accuracy := accuracy, timestamp := timestamp,
         formattedCoords := formattedCoords, notes := notes,
         recordedBy := recordedBy, recordedDate := recordedDate,
         sessionId := sessionId }

/-- The total point count over the included categories, as computed by
exportToJSON (a missing category array counts zero). -/
def totalPointsCount (points : Category → Option (List Point))
    (types : List Category) : ℕ :=
  (types.map (fun c => ((points c).getD []).length)).sum

/-- The fields of the points object of the Generic JSON export document:
one entry per included category whose array is present. -/
def pointsObjFields (t : String → String)
    (points : Category → Option (List Point)) (types : List Category) :
    List (String × Json) :=
  types.flatMap (fun c =>
    match points c with
    | none => []
    | some l => [(categoryKey c, Json.arr (l.map (pointJson t c)))])

/-- The Generic JSON export document built by exportToJSON. -/
def exportToJSONDoc (t : String → String) (lang nowIso : String)
    (points : Category → Option (List Point)) (types : List Category) : Json :=
  .obj [("exportDate", .str nowIso),
        ("exportedBy", .str "Forest Map v2.0"),
        ("language", .str lang),
        ("totalPoints", .num (totalPointsCount points types)),
        ("points", .obj (pointsObjFields t points types))]

/-- Reconstruct a list of points from a list of JSON entries. -/
def readPoints : List Json → Option (List Point)
  | [] => some []
  | j :: rest => do
    let p ← readPoint j
    let ps ← readPoints rest
    pure (p :: ps)

/-- Read back the point list of one category from the Generic JSON export
document. -/
def readExportedPoints (doc : Json) (c : Category) : Option (List Point) := do
  let fs ← asObj doc
  let pts ← jsonLookup fs "points" >>= asObj
  let a ← jsonLookup pts (categoryKey c) >>= asArr
  readPoints a

/-- The outcome of a plain-text exporter call: the download it triggers
(reported as success by downloadFile), or a nothing-to-export report.
The source exporters never produce the second outcome; it exists to state
what the specification asks for. -/
inductive ExportOutcome where
  | downloaded (filename : String) (content : String)
  | nothingToExport
deriving DecidableEq, Repr

/-- The outcome of an exporter whose payload is a JSON document. -/
inductive JsonExportOutcome where
  | downloaded (filename : String) (doc : Json)
  | nothingToExport

/-- A CSV cell: the source rows mix strings and numbers and only quote
strings containing a comma. -/
inductive Cell where
  | s (v : String)
  | n (v : ℚ)

/-- Join a list of strings with a separator (Array.prototype.join). -/
def joinSep (sep : String) : List String → String
  | [] => ""
  | [x] => x
  | x :: rest => x ++ sep ++ joinSep sep rest

/-- Render one CSV cell; numToStr stands for the JavaScript number-to-
string conversion of the environment (IEEE-double decimal rendering). -/
def renderCell (numToStr : ℚ → String) : Cell → String
  | .s v => if v.data.contains ',' then "\"" ++ v ++ "\"" else v
  | .n v => numToStr v

/-- Render one CSV row. -/
def csvRow (numToStr : ℚ → String) (row : List Cell) : String :=
  joinSep "," (row.map (renderCell numToStr))

/-- The CSV header row of exportToCSV. -/
def csvHeaders (t : String → String) : List Cell :=
  [.s (t "type"), .s "Number", .s (t "coordinates" ++ " (Lat)"),
   .s (t "coordinates" ++ " (Lng)"), .s (t "accuracy" ++ " (m)"),
   .s (t "recordedBy"), .s (t "marked"), .s (t "notes")]

/-- One CSV data row per point. -/
def csvPointRow (t : String → String) (fmtLocale : ℕ → String) (c : Category)
    (p : Point) : List Cell :=
  [.s (t (categoryKey c)), .n p.number, .n p.lat, .n p.lng, .n p.accuracy,
   .s (if p.recordedBy = "" then "Unknown" else p.recordedBy),
   .s (fmtLocale p.timestamp), .s p.notes]

/-- exportToCSV: one header row plus one row per point in category-then-
insertion order, joined with newlines, handed to downloadFile.  There is
no empty-selection check. -/
def exportToCSV (t : String → String) (numToStr : ℚ → String)
    (fmtLocale : ℕ → String) (points : Category → Option (List Point))
    (types : List Category) : ExportOutcome :=
  let dataRows : List (List Cell) := types.flatMap (fun c =>
    match points c with
    | none => []
    | some l => l.map (csvPointRow t fmtLocale c))
  let csv := joinSep "\n" ((csvHeaders t :: dataRows).map (csvRow numToStr))
  .downloaded "forest_points.csv" csv

/-- The document-level metadata block of the GPX export. -/
def gpxHeader (nowIso : String) : String :=
  "<?xml version=\"1.0\" encoding=\"UTF-8\"?>\n" ++
  "<gpx version=\"1.1\" xmlns=\"http://www.topografix.com/GPX/1/1\"\n" ++
  "     xmlns:xsi=\"http://www.w3.org/2001/XMLSchema-instance\"\n" ++
  "     xsi:schemaLocation=\"http://www.topografix.com/GPX/1/1 http://www.topografix.com/GPX/1/1/gpx.xsd\">\n" ++
  "  <metadata>\n" ++
  "    <name>Forest Map Points</name>\n" ++
  "    <desc>Points exported from Forest Map application</desc>\n" ++
  "    <time>" ++ nowIso ++ "</time>\n" ++
  "  </metadata>\n"

/-- One waypoint element of the GPX export. -/
def gpxWaypoint (t : String → String) (numToStr : ℚ → String)
    (fmtIso fmtIsoDate : ℕ → String) (c : Category) (p : Point) : String :=
  let desc0 := p.notes
  let desc :=
    if p.recordedBy ≠ "" then
      "Recorded by: " ++ p.recordedBy ++ (if desc0 ≠ "" then " - " ++ desc0 else "")
    else desc0
  let extensions :=
    if p.accuracy ≠ 0 ∨ p.recordedBy ≠ "" then
      "    <extensions>\n" ++
      (if p.accuracy ≠ 0 then
        "      <accuracy>" ++ numToStr p.accuracy ++ "</accuracy>\n" else "") ++
      (if p.recordedBy ≠ "" then
        "      <recordedBy>" ++ p.recordedBy ++ "</recordedBy>\n" ++
        "      <recordedDate>" ++
          (if p.recordedDate ≠ "" then p.recordedDate else fmtIsoDate p.timestamp) ++
          "</recordedDate>\n" else "") ++
      "    </extensions>\n"
    else ""
  "  <wpt lat=\"" ++ numToStr p.lat ++ "\" lon=\"" ++ numToStr p.lng ++ "\">\n" ++
  "    <name>" ++ t (categoryKey c) ++ " #" ++ toString p.number ++ "</name>\n" ++
  "    <desc>" ++ desc ++ "</desc>\n" ++
  "    <type>" ++ categoryKey c ++ "</type>\n" ++
  "    <time>" ++ fmtIso p.timestamp ++ "</time>\n" ++
  extensions ++
  "  </wpt>\n"

/-- exportToGPX: metadata block plus one waypoint per point, handed to
downloadFile.  There is no empty-selection check. -/
def exportToGPX (t : String → String) (numToStr : ℚ → String)
    (fmtIso fmtIsoDate : ℕ → String) (nowIso : String)
    (points : Category → Option (List Point)) (types : List Category) :
    ExportOutcome :=
  let wpts := types.flatMap (fun c =>
    match points c with
    | none => []
    | some l => l.map (gpxWaypoint t numToStr fmtIso fmtIsoDate c))
  .downloaded "forest_points.gpx"
    (gpxHeader nowIso ++ String.join wpts ++ "</gpx>")

/-- exportToJSON: builds the Generic JSON document and hands it to
downloadFile.  There is no empty-selection check. -/
def exportToJSON (t : String → String) (lang nowIso : String)
    (points : Category → Option (List Point)) (types : List Category) :
    JsonExportOutcome :=
  .downloaded "forest_points.json" (exportToJSONDoc t lang nowIso points types)

/-- The icon of the type configuration table. -/
def pointTypeIcon : Category → String
  | .exploitation => "E"
  | .clearing => "C"
  | .boundary => "B"

/-- The color of the type configuration table. -/
def pointTypeColor : Category → String
  | .exploitation => "#FF6B35"
  | .clearing => "#DC143C"
  | .boundary => "#4169E1"

/-- One feature of the GeoJSON export: geometry coordinates in
longitude-latitude order plus the full property set. -/
def geoFeature (t : String → String) (fmtIso fmtIsoDate : ℕ → String)
    (c : Category) (p : Point) : Json :=
  let recBy := if p.recordedBy = "" then "Unknown" else p.recordedBy
  let recDate := if p.recordedDate = "" then fmtIsoDate p.timestamp else p.recordedDate
  .obj [("type", .str "Feature"),
        ("geometry", .obj [("type", .str "Point"),
                           ("coordinates", .arr [.num p.lng, .num p.lat])]),
        ("properties", .obj
          [("id", .str p.id), ("pointType", .str (categoryKey c)),
           ("number", .num p.number), ("typeName", .str (t (categoryKey c))),
           ("typeDescription", .str (t (categoryKey c ++ "Desc"))),
           ("notes", .str p.notes), ("timestamp", .str (fmtIso p.timestamp)),
           ("accuracy", .num p.accuracy), ("icon", .str (pointTypeIcon c)),
           ("color", .str (pointTypeColor c)),
           ("formattedCoords", .str p.formattedCoords),
           ("recordedBy", .str recBy), ("recordedDate", .str recDate),
           ("sessionId", .str (if p.sessionId = "" then
              (if p.recordedDate = "" then "unknown" else p.recordedDate)
              else p.sessionId)),
           ("collectorInfo", .obj
             [("name", .str recBy), ("date", .str recDate),
              ("session", .str (if p.sessionId = "" then "unknown" else p.sessionId))])])]

/-- The feature list of the GeoJSON export. -/
def geoJsonFeatures (t : String → String) (fmtIso fmtIsoDate : ℕ → String)
    (points : Category → Option (List Point)) (types : List Category) :
    List Json :=
  types.flatMap (fun c =>
    match points c with
    | none => []
    | some l => l.map (geoFeature t fmtIso fmtIsoDate c))

/-- Deduplication preserving first occurrences, the order produced by
spreading a Set built from an array. -/
def jsDedup : List String → List String
  | [] => []
  | x :: xs => x :: jsDedup (xs.filter (· ≠ x))
termination_by l => l.length
decreasing_by
  simp only [List.length_cons]
  exact Nat.lt_succ_of_le (List.length_filter_le _ _)

/-- The recordedBy value of a feature, as summarized in collectors. -/
def featureRecordedBy (p : Point) : String :=
  if p.recordedBy = "" then "Unknown" else p.recordedBy

/-- The sessionId value of a feature, as summarized in sessions. -/
def featureSessionId (p : Point) : String :=
  if p.sessionId = "" then
    (if p.recordedDate = "" then "unknown" else p.recordedDate)
  else p.sessionId

/-- The GeoJSON export document built by exportToGeoJSON. -/
def exportToGeoJSONDoc (t : String → String) (lang nowIso : String)
    (fmtIso fmtIsoDate : ℕ → String)
    (points : Category → Option (List Point)) (types : List Category) : Json :=
  let features := geoJsonFeatures t fmtIso fmtIsoDate points types
  let flatPts := types.flatMap (fun c =>
    match points c with
    | none => []
    | some l => l)
  .obj [("type", .str "FeatureCollection"),
        ("features", .arr features),
        ("properties", .obj
          [("title", .str "Forest Map Points"),
           ("description", .str (toString features.length ++ " points exported from Forest Map")),
           ("exportDate", .str nowIso),
           ("exportedBy", .str "Forest Map v2.0"),
           ("language", .str lang),
           ("totalPoints", .num features.length),
           ("collectors", .arr ((jsDedup (flatPts.map featureRecordedBy)).map Json.str)),
           ("sessions", .arr ((jsDedup (flatPts.map featureSessionId)).map Json.str)),
           ("pointTypes", .obj
             [("exploitation", .num ((points .exploitation).getD []).length),
              ("clearing", .num ((points .clearing).getD []).length),
              ("boundary", .num ((points .boundary).getD []).length)])])]

/-- exportToGeoJSON on its default path: builds the document and hands it
to downloadFile.  There is no empty-selection check on this path (only
shareGeoJSON checks for zero features). -/
def exportToGeoJSON (t : String → String) (lang nowIso : String)
    (fmtIso fmtIsoDate : ℕ → String)
    (points : Category → Option (List Point)) (types : List Category) :
    JsonExportOutcome :=
  .downloaded "forest_points.geojson"
    (exportToGeoJSONDoc t lang nowIso fmtIso fmtIsoDate points types)

/-- The outcome of showExportDialog: either the notification emitted for
an empty store (built by showExportNotification from a null filename and
the literal error text, hence an error-severity message), or the format-
selection dialog showing the total count. -/
inductive DialogOutcome where
  | notification (message : String) (severity : String)
  | dialogShown (totalPoints : ℕ)
deriving DecidableEq, Repr

/-- showExportDialog: computes the total count over the three categories
and short-circuits to the No-points notification when it is zero. -/
def showExportDialog (counts : Category → ℕ) : DialogOutcome :=
  let total := (allCategories.map counts).sum
  if total = 0 then .notification "Export failed: No points to export" "error"
  else .dialogShown total

/-!
Reference-level model.  The snapshot-immutability question is about
JavaScript object identity: getPointsByType returns the internal array
object itself, while getAllPoints builds fresh arrays that still contain
the very same point record objects.  The model below makes object
references explicit: a heap of point records and a heap of arrays of
record addresses, with the module state holding the address of the
internal array of each category. -/

/-- The object heaps: point records and arrays of record addresses,
addressed by position. -/
structure Heap where
  objs : List Point
  arrs : List (List ℕ)

/-- The PointManager closure state at reference level: the address of
the internal points array of each category. -/
structure RefPM where
  heap : Heap
  pointsArr : Category → ℕ

/-- Dereference an array address. -/
def heapArr (h : Heap) (a : ℕ) : List ℕ :=
  h.arrs.getD a []

/-- Dereference a point-record address. -/
def heapObj (h : Heap) (a : ℕ) : Option Point :=
  h.objs.get? a

/-- The contents of the internal points array of a category, read through
the heap: this is the state the module itself sees. -/
def readStorePoints (st : RefPM) (c : Category) : List (Option Point) :=
  (heapArr st.heap (st.pointsArr c)).map (heapObj st.heap)

/-- getPointsByType at reference level: returns the internal array
object, that is, its address. -/
def getPointsByTypeRef (st : RefPM) (c : Category) : ℕ :=
  st.pointsArr c

/-- getAllPoints at reference level: allocates three fresh arrays holding
copies of the element addresses of the internal arrays, and returns their
addresses. -/
def getAllPointsRef (st : RefPM) : RefPM × (Category → ℕ) :=
  let n := st.heap.arrs.length
  let h2 : Heap :=
    { st.heap with arrs := st.heap.arrs ++
        [heapArr st.heap (st.pointsArr .exploitation),
         heapArr st.heap (st.pointsArr .clearing),
         heapArr st.heap (st.pointsArr .boundary)] }
  ({ st with heap := h2 },
   fun c => match c with
     | .exploitation => n
     | .clearing => n + 1
     | .boundary => n + 2)

/-- A caller-side mutation: push an element address onto the array at the
given address. -/
def arrayPush (st : RefPM) (a : ℕ) (objAddr : ℕ) : RefPM :=
  { st with heap :=
      { st.heap with arrs := st.heap.arrs.set a (heapArr st.heap a ++ [objAddr]) } }

/-- A caller-side mutation: assign the notes field of the point record at
the given address. -/
def objSetNotes (st : RefPM) (a : ℕ) (v : String) : RefPM :=
  { st with heap :=
      { st.heap with objs :=
          match st.heap.objs.get? a with
          | some p => st.heap.objs.set a { p with notes := v }
          | none => st.heap.objs } }

/-!
Concrete fixtures used by witness and counterexample theorems.
-/

/-- The settings of a freshly loaded module. -/
def emptySettings : Settings := { currentType := none, visibility := fun _ => true }

/-- Empty durable storage. -/
def emptyStorage : Storage :=
  { storedPoints := fun _ => none, storedCounters := none, storedSettings := none }

/-- The initial PointManager state. -/
def emptyPM : PMState :=
  { points := fun _ => [], counters := fun _ => 0,
    settings := emptySettings, storage := emptyStorage }

/-- Empty UserManager storage. -/
def emptyUS : UserStorage := { userNames := fun _ => none, sessions := fun _ => none }

/-- A sample GPS fix. -/
def pos1 : Position := { lat := 48, lng := 2, accuracy := some 8 }

/-- A sample interleaved creation trace: clearing, boundary, clearing. -/
def insSample : List CreateInput :=
  [{ cat := .clearing, userName := "Alice", pos := pos1, newId := "a",
     now := 100, today := "2024-03-01", nowIso := "T1" },
   { cat := .boundary, userName := "Alice", pos := pos1, newId := "b",
     now := 200, today := "2024-03-01", nowIso := "T2" },
   { cat := .clearing, userName := "Alice", pos := pos1, newId := "c",
     now := 300, today := "2024-03-01", nowIso := "T3" }]

/-- State after creating boundary point "a". -/
def c3s1 : PMState :=
  (createPointWithUserName emptyPM emptyUS .boundary "Alice" pos1 "a" 100
    "2024-03-01" "T").2.1

/-- The second boundary point "b" (sequence number 2). -/
def c3deleted : Point :=
  (createPointWithUserName c3s1 emptyUS .boundary "Alice" pos1 "b" 200
    "2024-03-01" "T").1

/-- State after creating boundary points "a" and "b". -/
def c3s2 : PMState :=
  (createPointWithUserName c3s1 emptyUS .boundary "Alice" pos1 "b" 200
    "2024-03-01" "T").2.1

/-- State after deleting point "b". -/
def c3afterDelete : PMState := (deletePoint c3s2 "b" (some .boundary)).2

/-- The post-delete storage with the counters record erased: the legacy
reload path in which loadFromLocalStorage recomputes the counters from
the stored points. -/
def c3legacyStorage : Storage :=
  { c3afterDelete.storage with storedCounters := none }

/-- The state reloaded from the legacy storage. -/
def c3reloaded : PMState := loadFromLocalStorage c3legacyStorage

/-- The point created after the legacy reload. -/
def c3newPoint : Point :=
  (createPointWithUserName c3reloaded emptyUS .boundary "Alice" pos1 "c" 300
    "2024-03-02" "T").1

/-- A sample stored point for the round-trip witness. -/
def ptW : Point :=
  { id := "w1", type := .exploitation, number := 1, lat := 48, lng := 2,
    accuracy := 8, timestamp := 1000, formattedCoords := "48.000000, 2.000000",
    notes := "", recordedBy := "Alice", recordedDate := "2024-03-01",
    sessionId := "2024-03-01" }

/-- A snapshot with a single exploitation point. -/
def ptsW : Category → Option (List Point) :=
  fun c => if c = .exploitation then some [ptW] else some []

/-- A sample point record in the reference-level heap. -/
def ptR : Point :=
  { id := "r1", type := .exploitation, number := 1, lat := 10, lng := 20,
    accuracy := 5, timestamp := 0, formattedCoords := "10.000000, 20.000000",
    notes := "", recordedBy := "Bob", recordedDate := "d", sessionId := "d" }

/-- A reference-level state with one exploitation point at object address
zero and the three internal arrays at addresses zero, one and two. -/
def refSt0 : RefPM :=
  { heap := { objs := [ptR], arrs := [[0], [], []] },
    pointsArr := fun c =>
      match c with
      | .exploitation => 0
      | .clearing => 1
      | .boundary => 2 }

/-- A fifty-one character name (the dialog rejects it, storage accepts it). -/
def longName : String :=
  "AAAAAAAAAAAAAAAAAAAAAAAAAAAAAAAAAAAAAAAAAAAAAAAAAAA"

/-!
Helper lemmas.
-/

theorem setCat_same {α : Type} (f : Category → α) (c : Category) (v : α) :
    setCat f c v c = v := by
  simp [setCat]

theorem setCat_ne {α : Type} (f : Category → α) (c c' : Category) (v : α)
    (h : c' ≠ c) : setCat f c v c' = f c' := by
  simp [setCat, h]

theorem createPoint_number (s : PMState) (us : UserStorage) (c : Category)
    (u : String) (pos : Position) (nid : String) (now : ℕ) (td iso : String) :
    (createPointWithUserName s us c u pos nid now td iso).1.number =
      s.counters c + 1 := rfl

theorem createPoint_type (s : PMState) (us : UserStorage) (c : Category)
    (u : String) (pos : Position) (nid : String) (now : ℕ) (td iso : String) :
    (createPointWithUserName s us c u pos nid now td iso).1.type = c := rfl

theorem createPoint_counters (s : PMState) (us : UserStorage) (c : Category)
    (u : String) (pos : Position) (nid : String) (now : ℕ) (td iso : String) :
    (createPointWithUserName s us c u pos nid now td iso).2.1.counters =
      setCat s.counters c (s.counters c + 1) := rfl

theorem createPoint_counters_le (s : PMState) (us : UserStorage) (c c' : Category)
    (u : String) (pos : Position) (nid : String) (now : ℕ) (td iso : String) :
    s.counters c' ≤
      (createPointWithUserName s us c u pos nid now td iso).2.1.counters c' := by
  rw [createPoint_counters]
  by_cases h : c' = c
  · subst h; rw [setCat_same]; exact Nat.le_succ _
  · rw [setCat_ne _ _ _ _ h]

theorem runCreates_cons_fst (s : PMState) (us : UserStorage) (i : CreateInput)
    (rest : List CreateInput) :
    (runCreates s us (i :: rest)).1 =
      (createPointWithUserName s us i.cat i.userName i.pos i.newId i.now
          i.today i.nowIso).1 ::
        (runCreates
          (createPointWithUserName s us i.cat i.userName i.pos i.newId i.now
            i.today i.nowIso).2.1
          (createPointWithUserName s us i.cat i.userName i.pos i.newId i.now
            i.today i.nowIso).2.2 rest).1 := rfl

theorem runCreates_cons_snd (s : PMState) (us : UserStorage) (i : CreateInput)
    (rest : List CreateInput) :
    (runCreates s us (i :: rest)).2 =
      (runCreates
        (createPointWithUserName s us i.cat i.userName i.pos i.newId i.now
          i.today i.nowIso).2.1
        (createPointWithUserName s us i.cat i.userName i.pos i.newId i.now
          i.today i.nowIso).2.2 rest).2 := rfl

theorem runCreates_counters_le (ins : List CreateInput) :
    ∀ (s : PMState) (us : UserStorage) (c : Category),
      s.counters c ≤ (runCreates s us ins).2.1.counters c := by
  induction ins with
  | nil => intro s us c; exact le_refl _
  | cons i rest ih =>
    intro s us c
    rw [runCreates_cons_snd]
    exact le_trans (createPoint_counters_le s us i.cat c i.userName i.pos
      i.newId i.now i.today i.nowIso) (ih _ _ c)

theorem runCreates_number_gt (ins : List CreateInput) :
    ∀ (s : PMState) (us : UserStorage) (c : Category) (p : Point),
      p ∈ (runCreates s us ins).1 → p.type = c → s.counters c < p.number := by
  induction ins with
  | nil => intro s us c p hp; simp [runCreates] at hp
  | cons i rest ih =>
    intro s us c p hp htype
    rw [runCreates_cons_fst] at hp
    rcases List.mem_cons.mp hp with hq | hrest
    · subst hq
      rw [createPoint_type] at htype
      subst htype
      rw [createPoint_number]
      exact Nat.lt_succ_self _
    · have h1 := ih _ _ c p hrest htype
      exact lt_of_le_of_lt (createPoint_counters_le s us i.cat c i.userName
        i.pos i.newId i.now i.today i.nowIso) h1

theorem runCreates_pairwise (ins : List CreateInput) :
    ∀ (s : PMState) (us : UserStorage) (c : Category),
      List.Pairwise (· < ·)
        (((runCreates s us ins).1.filter (fun p => p.type == c)).map
          Point.number) := by
  induction ins with
  | nil => intro s us c; simp [runCreates]
  | cons i rest ih =>
    intro s us c
    rw [runCreates_cons_fst, List.filter_cons]
    by_cases hc : i.cat = c
    · have hq : ((createPointWithUserName s us i.cat i.userName i.pos i.newId
          i.now i.today i.nowIso).1.type == c) = true := by
        rw [createPoint_type]; exact beq_iff_eq.mpr hc
      rw [if_pos hq, List.map_cons]
      refine List.Pairwise.cons ?_ (ih _ _ c)
      intro b hb
      rcases List.mem_map.mp hb with ⟨p, hpmem, hpnum⟩
      rcases List.mem_filter.mp hpmem with ⟨hpin, hptype⟩
      have htype : p.type = c := beq_iff_eq.mp hptype
      have h1 := runCreates_number_gt rest _ _ c p hpin htype
      have h2 : (createPointWithUserName s us i.cat i.userName i.pos i.newId
          i.now i.today i.nowIso).2.1.counters c = s.counters c + 1 := by
        rw [createPoint_counters, ← hc, setCat_same]
      have h3 : (createPointWithUserName s us i.cat i.userName i.pos i.newId
          i.now i.today i.nowIso).1.number = s.counters c + 1 := by
        rw [createPoint_number, hc]
      rw [h2] at h1
      rw [h3, ← hpnum]
      omega
    · have hq : ((createPointWithUserName s us i.cat i.userName i.pos i.newId
          i.now i.today i.nowIso).1.type == c) = false := by
        rw [createPoint_type]
        exact beq_eq_false_iff_ne.mpr hc
      rw [if_neg (by simp [hq])]
      exact ih _ _ c

theorem runCreates_append_snd (l1 : List CreateInput) :
    ∀ (l2 : List CreateInput) (s : PMState) (us : UserStorage),
      (runCreates s us (l1 ++ l2)).2 =
        (runCreates (runCreates s us l1).2.1 (runCreates s us l1).2.2 l2).2 := by
  induction l1 with
  | nil => intro l2 s us; rfl
  | cons i rest ih =>
    intro l2 s us
    rw [List.cons_append, runCreates_cons_snd, ih, runCreates_cons_snd]

/-!
Claim theorems.
-/

/-- C1: along any interleaved sequence of successful point creations, the
sequence numbers returned within one category are pairwise strictly
increasing in creation order (hence unique), every returned number is
positive, and the per-category counter never decreases as the trace is
extended. -/
theorem create_sequence_numbers_invariant (s : PMState) (us : UserStorage)
    (ins : List CreateInput) (c : Category) :
    List.Pairwise (· < ·)
      (((runCreates s us ins).1.filter (fun p => p.type == c)).map Point.number)
    ∧ (∀ p ∈ (runCreates s us ins).1, 0 < p.number)
    ∧ ∀ ins2, (runCreates s us ins).2.1.counters c ≤
        (runCreates s us (ins ++ ins2)).2.1.counters c := by
  refine ⟨runCreates_pairwise ins s us c, ?_, ?_⟩
  · intro p hp
    have h := runCreates_number_gt ins s us p.type p hp rfl
    omega
  · intro ins2
    rw [runCreates_append_snd]
    exact runCreates_counters_le ins2 _ _ c

/-- C1 witness: the invariant evaluated on a concrete interleaved trace
of two clearing creations and one boundary creation. -/
theorem create_sequence_numbers_invariant_witness :
    List.Pairwise (· < ·)
      (((runCreates emptyPM emptyUS insSample).1.filter
          (fun p => p.type == Category.clearing)).map Point.number)
    ∧ ∀ p ∈ (runCreates emptyPM emptyUS insSample).1, 0 < p.number := by
  have h := create_sequence_numbers_invariant emptyPM emptyUS insSample .clearing
  exact ⟨h.1, h.2.1⟩

/-- C2: whenever markPoint resolves to null (unknown category, GPS
unavailable, a dismissed identity prompt, or an empty resolved name), the
PointManager state, its durable storage and the UserManager storage are
all left exactly as they were: no counter is incremented, no point is
appended and nothing is persisted. -/
theorem markPoint_null_leaves_state_unchanged (s : PMState) (us : UserStorage)
    (typeArg : Option Category) (gps : Option Position)
    (promptOutcome : Option String) (newId : String) (now : ℕ)
    (today nowIso : String)
    (h : (markPoint s us typeArg gps promptOutcome newId now today nowIso).1
        = none) :
    (markPoint s us typeArg gps promptOutcome newId now today nowIso).2.1 = s
    ∧ (markPoint s us typeArg gps promptOutcome newId now today nowIso).2.2
        = us := by
  cases typeArg with
  | none => exact ⟨rfl, rfl⟩
  | some c =>
    by_cases hg : isGPSAvailable gps
    · cases gps with
      | none => simp [isGPSAvailable] at hg
      | some pos =>
        by_cases hu : hasUserNameForToday us today
        · cases hn : getStoredUserName us today with
          | none => simp [markPoint, hg, hu, hn]
          | some name =>
            by_cases hne : name = ""
            · simp [markPoint, hg, hu, hn, hne]
            · simp [markPoint, hg, hu, hn, hne] at h
        · cases hp : promptOutcome with
          | none => simp [markPoint, hg, hu, hp]
          | some name =>
            by_cases hne : name = ""
            · subst hne
              have ht : jsTrim "" = "" := by decide
              simp [markPoint, hg, hu, hp, storeUserName, ht]
            · simp [markPoint, hg, hu, hp, hne] at h
    · simp [markPoint, hg]

/-- C2 witness: a markPoint call with no GPS fix resolves to null and
leaves the concrete empty states untouched. -/
theorem markPoint_null_leaves_state_unchanged_witness :
    (markPoint emptyPM emptyUS (some .boundary) none none "x" 0
        "2024-03-01" "T").1 = none
    ∧ (markPoint emptyPM emptyUS (some .boundary) none none "x" 0
        "2024-03-01" "T").2.1 = emptyPM := by
  refine ⟨rfl, ?_⟩
  exact (markPoint_null_leaves_state_unchanged emptyPM emptyUS (some .boundary)
    none none "x" 0 "2024-03-01" "T" rfl).1

theorem findIndex_eq_none (pred : Point → Bool) :
    ∀ l : List Point, (∀ x ∈ l, pred x = false) → findIndex pred l = none := by
  intro l
  induction l with
  | nil => intro _; rfl
  | cons a rest ih =>
    intro h
    have ha : pred a = false := h a (List.mem_cons_self a rest)
    have hrest : findIndex pred rest = none :=
      ih (fun x hx => h x (List.mem_cons_of_mem a hx))
    simp [findIndex, ha, hrest]

theorem spliceOne_no_more (pred : Point → Bool) :
    ∀ (l : List Point) (i : ℕ), findIndex pred l = some i →
      (l.filter pred).length ≤ 1 → ∀ x ∈ spliceOne l i, pred x = false := by
  intro l
  induction l with
  | nil => intro i h; simp [findIndex] at h
  | cons a rest ih =>
    intro i h hlen x hx
    by_cases hp : pred a
    · simp [findIndex, hp] at h
      subst h
      simp [spliceOne] at hx
      have hstep : List.filter pred (a :: rest) = a :: List.filter pred rest := by
        simp [List.filter_cons, hp]
      rw [hstep, List.length_cons] at hlen
      have hflt : (rest.filter pred).length = 0 := by omega
      have : rest.filter pred = [] := List.length_eq_zero.mp hflt
      by_contra hcon
      have hmem : x ∈ rest.filter pred :=
        List.mem_filter.mpr ⟨hx, by revert hcon; cases pred x <;> simp⟩
      rw [this] at hmem
      exact List.not_mem_nil x hmem
    · simp [findIndex, hp] at h
      rcases h with ⟨j, hj, hij⟩
      subst hij
      simp [spliceOne] at hx
      rcases hx with hxa | hxr
      · subst hxa
        exact Bool.of_not_eq_true hp
      · have hlen2 : (rest.filter pred).length ≤ 1 := by
          simpa [List.filter_cons, hp] using hlen
        exact ih j hj hlen2 x hxr

/-- C8: deletePoint with an id that is not present in the category
returns false and changes nothing at all (same in-memory state, same
storage); moreover no deletePoint call, on any id, ever changes any
category counter. -/
theorem deletePoint_missing_id_noop (s : PMState) (pid : String) (c : Category)
    (h : ∀ p ∈ s.points c, p.id ≠ pid) :
    deletePoint s pid (some c) = (false, s)
    ∧ ∀ (pid2 : String) (ty : Option Category),
        (deletePoint s pid2 ty).2.counters = s.counters := by
  constructor
  · have hf : findIndex (fun p => p.id == pid) (s.points c) = none :=
      findIndex_eq_none _ _ (fun x hx => beq_eq_false_iff_ne.mpr (h x hx))
    simp [deletePoint, hf]
  · intro pid2 ty
    cases ty with
    | none => rfl
    | some c2 =>
      cases hf : findIndex (fun p => p.id == pid2) (s.points c2) with
      | none => simp [deletePoint, hf]
      | some i => simp [deletePoint, hf, saveToLocalStorage]

/-- C8 witness: deleting a never-created id from a concrete one-point
store returns false and leaves the state identical. -/
theorem deletePoint_missing_id_noop_witness :
    (∀ p ∈ c3s1.points .boundary, p.id ≠ "zz")
    ∧ deletePoint c3s1 "zz" (some .boundary) = (false, c3s1) :=
  ⟨by decide, (deletePoint_missing_id_noop c3s1 "zz" .boundary (by decide)).1⟩

/-- C3 counterexample: create boundary points 1 and 2, delete point 2
(the delete succeeds and persists), then reload from a storage in which
the counters record is absent, as the claim explicitly allows.  The
recomputed counter is the maximum of the remaining stored numbers, so the
next created point receives sequence number 2 — exactly the deleted
point's number, assigned to a different point. -/
theorem delete_reload_reassigns_number_counterexample :
    (deletePoint c3s2 "b" (some .boundary)).1 = true
    ∧ c3deleted.number = 2
    ∧ c3deleted.id = "b"
    ∧ c3legacyStorage.storedCounters = none
    ∧ c3newPoint.number = 2
    ∧ c3newPoint.id = "c" := by
  refine ⟨by decide, by decide, by decide, rfl, by decide, by decide⟩

/-- C3 amended: after a successful delete whose id occurred once, a
reload from the resulting durable storage restores exactly the post-
delete points (the deleted point is never resurrected) and — because
every save persists the counters record, which the delete left untouched
— restores the original counters, so the next created point gets the
counter successor, which differs from the number of every point (deleted
ones included) whose number is bounded by the persisted counter.  The
guarantee holds on the persisted-counters path; the absent-counters
recompute path violates it (see the counterexample). -/
theorem delete_reload_no_resurrection (s : PMState) (c : Category)
    (pid : String)
    (hdel : (deletePoint s pid (some c)).1 = true)
    (hone : ((s.points c).filter (fun p => p.id == pid)).length ≤ 1) :
    (loadFromLocalStorage (deletePoint s pid (some c)).2.storage).points c
        = (deletePoint s pid (some c)).2.points c
    ∧ (∀ p ∈ (loadFromLocalStorage
          (deletePoint s pid (some c)).2.storage).points c, p.id ≠ pid)
    ∧ (loadFromLocalStorage (deletePoint s pid (some c)).2.storage).counters
        = s.counters
    ∧ ∀ (us : UserStorage) (u : String) (pos : Position) (nid : String)
        (now : ℕ) (td iso : String) (p : Point), p ∈ s.points c →
        p.number ≤ s.counters c →
        (createPointWithUserName
            (loadFromLocalStorage (deletePoint s pid (some c)).2.storage) us c
            u pos nid now td iso).1.number = s.counters c + 1
        ∧ (createPointWithUserName
            (loadFromLocalStorage (deletePoint s pid (some c)).2.storage) us c
            u pos nid now td iso).1.number ≠ p.number := by
  cases hf : findIndex (fun p => p.id == pid) (s.points c) with
  | none => simp [deletePoint, hf] at hdel
  | some i =>
    have hpoints : (deletePoint s pid (some c)).2.points c
        = spliceOne (s.points c) i := by
      simp [deletePoint, hf, saveToLocalStorage, setCat_same]
    have hstpts : (deletePoint s pid (some c)).2.storage.storedPoints c
        = some (spliceOne (s.points c) i) := by
      simp [deletePoint, hf, saveToLocalStorage, setCat_same]
    have hstctr : (deletePoint s pid (some c)).2.storage.storedCounters
        = some s.counters := by
      simp [deletePoint, hf, saveToLocalStorage]
    have hld : (loadFromLocalStorage
        (deletePoint s pid (some c)).2.storage).points c
        = spliceOne (s.points c) i := by
      simp [loadFromLocalStorage, hstpts]
    have hldc : (loadFromLocalStorage
        (deletePoint s pid (some c)).2.storage).counters = s.counters := by
      simp [loadFromLocalStorage, hstctr]
    refine ⟨by rw [hld, hpoints], ?_, hldc, ?_⟩
    · intro p hp
      rw [hld] at hp
      have := spliceOne_no_more _ _ _ hf hone p hp
      exact beq_eq_false_iff_ne.mp this
    · intro us u pos nid now td iso p _hp hple
      rw [createPoint_number, hldc]
      exact ⟨rfl, by omega⟩

/-- C3 amended witness: the concrete two-point boundary store with point
"b" deleted, reloaded from the persisted storage: point "b" is gone and
the counters are preserved. -/
theorem delete_reload_no_resurrection_witness :
    ((deletePoint c3s2 "b" (some .boundary)).1 = true)
    ∧ (((c3s2.points .boundary).filter (fun p => p.id == "b")).length ≤ 1)
    ∧ ∀ p ∈ (loadFromLocalStorage
        (deletePoint c3s2 "b" (some .boundary)).2.storage).points .boundary,
        p.id ≠ "b" :=
  ⟨by decide, by decide,
   (delete_reload_no_resurrection c3s2 .boundary "b" (by decide)
     (by decide)).2.1⟩

/-- C4: after performClearAll every category's sequence is empty, every
counter is zero, the empty arrays and the zeroed counters are persisted,
and the active-category selection is reset and persisted; consequently
the next successful creation in any category returns sequence number one
and leaves a total of exactly one point across all categories. -/
theorem performClearAll_resets (s : PMState) :
    (∀ c, (performClearAll s).points c = []
      ∧ (performClearAll s).counters c = 0
      ∧ (performClearAll s).storage.storedPoints c = some [])
    ∧ (performClearAll s).storage.storedCounters
        = some (performClearAll s).counters
    ∧ (performClearAll s).settings.currentType = none
    ∧ (performClearAll s).storage.storedSettings
        = some (performClearAll s).settings
    ∧ ∀ (us : UserStorage) (c : Category) (u : String) (pos : Position)
        (nid : String) (now : ℕ) (td iso : String),
        (createPointWithUserName (performClearAll s) us c u pos nid now td
            iso).1.number = 1
        ∧ totalCount (createPointWithUserName (performClearAll s) us c u pos
            nid now td iso).2.1 = 1 := by
  refine ⟨?_, ?_, rfl, rfl, ?_⟩
  · intro c
    cases c <;>
      simp [performClearAll, allCategories, clearType, saveToLocalStorage,
        saveSettings, setCat]
  · simp [performClearAll, allCategories, clearType, saveToLocalStorage,
      saveSettings]
  · intro us c u pos nid now td iso
    have hz : ∀ c', (performClearAll s).counters c' = 0 := by
      intro c'
      cases c' <;>
        simp [performClearAll, allCategories, clearType, saveToLocalStorage,
          saveSettings, setCat]
    have he : ∀ c', (performClearAll s).points c' = [] := by
      intro c'
      cases c' <;>
        simp [performClearAll, allCategories, clearType, saveToLocalStorage,
          saveSettings, setCat]
    constructor
    · rw [createPoint_number, hz]
    · have hpts : ∀ c',
          (createPointWithUserName (performClearAll s) us c u pos nid now td
            iso).2.1.points c'
          = setCat (performClearAll s).points c
              ((performClearAll s).points c ++
                [(createPointWithUserName (performClearAll s) us c u pos nid
                  now td iso).1]) c' := fun _ => rfl
      have hlen : ∀ c',
          ((createPointWithUserName (performClearAll s) us c u pos nid now td
            iso).2.1.points c').length = if c' = c then 1 else 0 := by
        intro c'
        rw [hpts c']
        by_cases hc : c' = c
        · subst hc
          rw [setCat_same, he c', if_pos rfl]
          simp
        · rw [setCat_ne _ _ _ _ hc, he c', if_neg hc]
          rfl
      cases c <;>
        simp [totalCount, getCountByType, hlen]

/-- C4 witness: the e.g. scenario — two clearing points and one boundary
point, clear all, then one boundary creation: the new boundary point has
sequence number one and the store holds exactly one point in total. -/
theorem performClearAll_resets_witness :
    (createPointWithUserName
        (performClearAll (runCreates emptyPM emptyUS insSample).2.1) emptyUS
        .boundary "Alice" pos1 "z" 400 "2024-03-01" "T").1.number = 1
    ∧ totalCount (createPointWithUserName
        (performClearAll (runCreates emptyPM emptyUS insSample).2.1) emptyUS
        .boundary "Alice" pos1 "z" 400 "2024-03-01" "T").2.1 = 1 :=
  (performClearAll_resets (runCreates emptyPM emptyUS insSample).2.1).2.2.2.2
    emptyUS .boundary "Alice" pos1 "z" 400 "2024-03-01" "T"

theorem natCast_num_toNat (n : ℕ) : ((n : ℚ)).num.toNat = n := by
  simp

theorem parseCategory_categoryKey (c : Category) :
    parseCategory (categoryKey c) = some c := by
  cases c <;> rfl

theorem categoryKey_injective (a b : Category)
    (h : categoryKey a = categoryKey b) : a = b := by
  cases a <;> cases b <;> first | rfl | simp [categoryKey] at h

theorem readPoint_pointJson (t : String → String) (c : Category) (p : Point) :
    readPoint (pointJson t c p) = some p := by
  rcases p with ⟨id, ty, number, lat, lng, accuracy, timestamp, fc, notes,
    recBy, recDate, sessId⟩
  cases ty <;>
    simp [pointJson, readPoint, jsonLookup, asObj, asStr, asNum, readNat,
      parseCategory, categoryKey, Option.bind]

theorem readPoints_map (t : String → String) (c : Category) :
    ∀ l : List Point, readPoints (l.map (pointJson t c)) = some l := by
  intro l
  induction l with
  | nil => rfl
  | cons p rest ih =>
    simp [readPoints, readPoint_pointJson, ih, Option.bind]

theorem pointsObj_lookup (t : String → String)
    (points : Category → Option (List Point)) :
    ∀ (types : List Category) (c : Category) (l : List Point), c ∈ types →
      points c = some l →
      jsonLookup (pointsObjFields t points types) (categoryKey c)
        = some (.arr (l.map (pointJson t c))) := by
  intro types
  induction types with
  | nil => intro c l hmem; exact absurd hmem (List.not_mem_nil c)
  | cons ty rest ih =>
    intro c l hmem hpc
    by_cases hec : ty = c
    · subst hec
      simp [pointsObjFields, hpc, jsonLookup]
    · have hmem2 : c ∈ rest := by
        rcases List.mem_cons.mp hmem with h | h
        · exact absurd h.symm hec
        · exact h
      have hkey : categoryKey ty ≠ categoryKey c :=
        fun h => hec (categoryKey_injective ty c h)
      cases hpt : points ty with
      | none =>
        simp only [pointsObjFields, List.flatMap_cons, hpt, List.nil_append]
        exact ih c l hmem2 hpc
      | some l2 =>
        simp only [pointsObjFields, List.flatMap_cons, hpt,
          List.singleton_append, jsonLookup, if_neg hkey]
        exact ih c l hmem2 hpc

/-- C6: the Generic JSON export round-trips: for a non-empty snapshot,
reading back any included category whose array is present reconstructs
every stored Point record exactly, every field included. -/
theorem json_export_roundtrip (t : String → String) (lang nowIso : String)
    (points : Category → Option (List Point)) (types : List Category)
    (c : Category) (l : List Point)
    (hmem : c ∈ types) (hpc : points c = some l)
    (_hne : 0 < totalPointsCount points types) :
    readExportedPoints (exportToJSONDoc t lang nowIso points types) c
      = some l := by
  have hlk := pointsObj_lookup t points types c l hmem hpc
  simp [readExportedPoints, exportToJSONDoc, asObj, jsonLookup, hlk, asArr,
    Option.bind, readPoints_map]

/-- C6 witness: a concrete one-point snapshot serialized and read back
field for field. -/
theorem json_export_roundtrip_witness :
    (Category.exploitation ∈ allCategories)
    ∧ ptsW .exploitation = some [ptW]
    ∧ 0 < totalPointsCount ptsW allCategories
    ∧ readExportedPoints
        (exportToJSONDoc (fun k => k) "en" "2024-03-01T00:00:00.000Z" ptsW
          allCategories) .exploitation = some [ptW] :=
  ⟨by decide, rfl, by decide,
   json_export_roundtrip (fun k => k) "en" "2024-03-01T00:00:00.000Z" ptsW
     allCategories .exploitation [ptW] (by decide) rfl (by decide)⟩

theorem flatMap_nil_of_forall {β : Type} (f : Category → List β) :
    ∀ types : List Category, (∀ c ∈ types, f c = []) → types.flatMap f = [] := by
  intro types
  induction types with
  | nil => intro _; rfl
  | cons ty rest ih =>
    intro h
    rw [List.flatMap_cons, h ty (List.mem_cons_self ty rest),
      List.nil_append]
    exact ih (fun c hc => h c (List.mem_cons_of_mem ty hc))

/-- C5 counterexample: exportToCSV called on a selection with zero points
in every included category does not report a nothing-to-export no-op: it
produces a file consisting of exactly the header row and hands it to
downloadFile, which reports success. -/
theorem exportToCSV_empty_selection_counterexample :
    exportToCSV (fun k => k) (fun _ => "0") (fun _ => "") (fun _ => some [])
        allCategories
      = ExportOutcome.downloaded "forest_points.csv"
          "type,Number,coordinates (Lat),coordinates (Lng),accuracy (m),recordedBy,marked,notes"
    ∧ ("type,Number,coordinates (Lat),coordinates (Lng),accuracy (m),recordedBy,marked,notes"
        : String) ≠ ""
    ∧ exportToCSV (fun k => k) (fun _ => "0") (fun _ => "") (fun _ => some [])
        allCategories ≠ ExportOutcome.nothingToExport := by
  refine ⟨by decide, by decide, by decide⟩

/-- C5 amended: none of the four exporters checks for an empty selection;
each produces its shell (header-only CSV, metadata-only GPX, a JSON
document with totalPoints zero and empty category arrays, a GeoJSON
feature collection with no features) and hands it to downloadFile as a
success.  The only zero-point gate sits in front of them: showExportDialog
short-circuits to a notification (worded as an export failure, with error
severity) when the whole store is empty, and never opens the format
dialog. -/
theorem exporters_empty_selection_behavior (t : String → String)
    (numToStr : ℚ → String) (fmtLocale fmtIso fmtIsoDate : ℕ → String)
    (lang nowIso : String) (points : Category → Option (List Point))
    (types : List Category)
    (hempty : ∀ c ∈ types, (points c).getD [] = []) :
    exportToCSV t numToStr fmtLocale points types
      = ExportOutcome.downloaded "forest_points.csv"
          (csvRow numToStr (csvHeaders t))
    ∧ exportToGPX t numToStr fmtIso fmtIsoDate nowIso points types
      = ExportOutcome.downloaded "forest_points.gpx"
          (gpxHeader nowIso ++ "</gpx>")
    ∧ totalPointsCount points types = 0
    ∧ exportToJSON t lang nowIso points types
      = JsonExportOutcome.downloaded "forest_points.json"
          (exportToJSONDoc t lang nowIso points types)
    ∧ (∀ c ∈ types, ∀ l, points c = some l →
        readExportedPoints (exportToJSONDoc t lang nowIso points types) c
          = some [])
    ∧ geoJsonFeatures t fmtIso fmtIsoDate points types = []
    ∧ exportToGeoJSON t lang nowIso fmtIso fmtIsoDate points types
      = JsonExportOutcome.downloaded "forest_points.geojson"
          (exportToGeoJSONDoc t lang nowIso fmtIso fmtIsoDate points types)
    ∧ ∀ counts : Category → ℕ, (∀ c, counts c = 0) →
        showExportDialog counts
          = DialogOutcome.notification "Export failed: No points to export"
              "error" := by
  have hnil : ∀ c ∈ types, ∀ l, points c = some l → l = [] := by
    intro c hc l hl
    have := hempty c hc
    rw [hl] at this
    exact this
  refine ⟨?_, ?_, ?_, rfl, ?_, ?_, rfl, ?_⟩
  · have hrows : types.flatMap (fun c =>
        match points c with
        | none => []
        | some l => l.map (csvPointRow t fmtLocale c)) = [] := by
      refine flatMap_nil_of_forall _ types ?_
      intro c hc
      cases hl : points c with
      | none => rfl
      | some l => rw [hnil c hc l hl]; rfl
    simp [exportToCSV, hrows, joinSep]
  · have hwpts : types.flatMap (fun c =>
        match points c with
        | none => []
        | some l => l.map (gpxWaypoint t numToStr fmtIso fmtIsoDate c)) = [] := by
      refine flatMap_nil_of_forall _ types ?_
      intro c hc
      cases hl : points c with
      | none => rfl
      | some l => rw [hnil c hc l hl]; rfl
    simp [exportToGPX, hwpts, String.join]
  · have : ∀ c ∈ types, ((points c).getD []).length = 0 := by
      intro c hc; rw [hempty c hc]; rfl
    unfold totalPointsCount
    refine List.sum_eq_zero ?_
    intro x hx
    rcases List.mem_map.mp hx with ⟨c, hc, hxc⟩
    rw [← hxc]
    exact this c hc
  · intro c hc l hl
    have hl0 : l = [] := hnil c hc l hl
    subst hl0
    have hlk := pointsObj_lookup t points types c [] hc hl
    simp [readExportedPoints, exportToJSONDoc, asObj, jsonLookup, hlk, asArr,
      Option.bind, readPoints]
  · refine flatMap_nil_of_forall _ types ?_
    intro c hc
    cases hl : points c with
    | none => rfl
    | some l => rw [hnil c hc l hl]; rfl
  · intro counts hc
    simp [showExportDialog, allCategories, hc]

/-- C5 amended witness: the exporters on a concrete all-empty selection
produce their shells while the dialog gate reports the failure-worded
notification. -/
theorem exporters_empty_selection_behavior_witness :
    (∀ c ∈ allCategories, (((fun _ => some []) : Category → Option (List Point)) c).getD [] = [])
    ∧ exportToGPX (fun k => k) (fun _ => "0") (fun _ => "") (fun _ => "")
        "2024-03-01T00:00:00.000Z" (fun _ => some []) allCategories
      = ExportOutcome.downloaded "forest_points.gpx"
          (gpxHeader "2024-03-01T00:00:00.000Z" ++ "</gpx>")
    ∧ geoJsonFeatures (fun k => k) (fun _ => "") (fun _ => "")
        (fun _ => some []) allCategories = [] := by
  refine ⟨by decide, ?_, ?_⟩
  · exact (exporters_empty_selection_behavior (fun k => k) (fun _ => "0")
      (fun _ => "") (fun _ => "") (fun _ => "") "en" "2024-03-01T00:00:00.000Z"
      (fun _ => some []) allCategories (by decide)).2.1
  · exact (exporters_empty_selection_behavior (fun k => k) (fun _ => "0")
      (fun _ => "") (fun _ => "") (fun _ => "") "en" "2024-03-01T00:00:00.000Z"
      (fun _ => some []) allCategories (by decide)).2.2.2.2.2.1

theorem listGetD_append {α : Type} (d : α) :
    ∀ (l l2 : List α) (j : ℕ), j < l.length → (l ++ l2).getD j d = l.getD j d := by
  intro l
  induction l with
  | nil => intro l2 j hj; simp at hj
  | cons a rest ih =>
    intro l2 j hj
    cases j with
    | zero => rfl
    | succ j2 =>
      simp only [List.cons_append, List.getD_cons_succ]
      exact ih l2 j2 (by simpa using hj)

theorem listGetD_set_ne {α : Type} (d : α) :
    ∀ (l : List α) (i j : ℕ) (v : α), i ≠ j →
      (l.set i v).getD j d = l.getD j d := by
  intro l
  induction l with
  | nil => intro i j v _; rfl
  | cons a rest ih =>
    intro i j v hij
    cases i with
    | zero =>
      cases j with
      | zero => exact absurd rfl hij
      | succ j2 => rfl
    | succ i2 =>
      cases j with
      | zero => rfl
      | succ j2 =>
        simp only [List.set_cons_succ, List.getD_cons_succ]
        exact ih i2 j2 v (fun h => hij (by rw [h]))

/-- C7 counterexample: the snapshots are not caller-immutable.  Pushing
onto the array returned by getPointsByType grows the internal category
sequence, and assigning the notes field of a record reached through a
getAllPoints snapshot rewrites the record the store itself reads. -/
theorem snapshot_mutation_changes_store_counterexample :
    readStorePoints refSt0 .exploitation = [some ptR]
    ∧ readStorePoints
        (arrayPush refSt0 (getPointsByTypeRef refSt0 .exploitation) 0)
        .exploitation = [some ptR, some ptR]
    ∧ readStorePoints
        (objSetNotes (getAllPointsRef refSt0).1
          ((heapArr (getAllPointsRef refSt0).1.heap
            ((getAllPointsRef refSt0).2 .exploitation)).headD 99) "hacked")
        .exploitation = [some { ptR with notes := "hacked" }] := by
  refine ⟨by decide, by decide, by decide⟩

/-- C7 amended: the arrays returned by getAllPoints are fresh copies, so
array-level mutation through a getAllPoints snapshot (here: push) leaves
every internal category sequence unchanged; the point records themselves
remain shared, and getPointsByType returns the internal array itself, so
those mutations do reach the store (see the counterexample). -/
theorem getAllPoints_fresh_arrays (st : RefPM) (c c2 : Category) (x : ℕ)
    (h : ∀ c3, st.pointsArr c3 < st.heap.arrs.length) :
    readStorePoints
        (arrayPush (getAllPointsRef st).1 ((getAllPointsRef st).2 c) x) c2
      = readStorePoints st c2 := by
  have hlt : st.pointsArr c2 < st.heap.arrs.length := h c2
  have hge : st.heap.arrs.length ≤ (getAllPointsRef st).2 c := by
    cases c <;> simp [getAllPointsRef]
  have hne : (getAllPointsRef st).2 c ≠ st.pointsArr c2 := by omega
  have harr : heapArr
      (arrayPush (getAllPointsRef st).1 ((getAllPointsRef st).2 c) x).heap
      (st.pointsArr c2) = heapArr st.heap (st.pointsArr c2) := by
    show (((getAllPointsRef st).1.heap.arrs.set _ _).getD _ [])
        = st.heap.arrs.getD _ []
    rw [listGetD_set_ne _ _ _ _ _ hne]
    show ((st.heap.arrs ++ _).getD _ []) = st.heap.arrs.getD _ []
    exact listGetD_append _ _ _ _ hlt
  have hobjs : (arrayPush (getAllPointsRef st).1 ((getAllPointsRef st).2 c)
      x).heap.objs = st.heap.objs := rfl
  show ((heapArr _ ((arrayPush (getAllPointsRef st).1
      ((getAllPointsRef st).2 c) x).pointsArr c2)).map _) = _
  have hpa : (arrayPush (getAllPointsRef st).1 ((getAllPointsRef st).2 c)
      x).pointsArr c2 = st.pointsArr c2 := rfl
  rw [hpa, harr]
  unfold readStorePoints
  congr 1

/-- C7 amended witness: pushing onto the getAllPoints snapshot of the
concrete one-point heap leaves the internal exploitation sequence
unchanged. -/
theorem getAllPoints_fresh_arrays_witness :
    (∀ c3, refSt0.pointsArr c3 < refSt0.heap.arrs.length)
    ∧ readStorePoints
        (arrayPush (getAllPointsRef refSt0).1
          ((getAllPointsRef refSt0).2 .exploitation) 0) .exploitation
      = readStorePoints refSt0 .exploitation :=
  ⟨by decide,
   getAllPoints_fresh_arrays refSt0 .exploitation .exploitation 0 (by decide)⟩

/-- C9 counterexample: updateSessionPointCount called when no session
record exists for the day-key is not a no-op: the absent record parses as
the empty object and a session entry with pointCount one and a fresh
lastActivity is written to storage. -/
theorem updateSessionPointCount_creates_entry_counterexample :
    emptyUS.sessions "2024-03-01" = none
    ∧ (updateSessionPointCount emptyUS "2024-03-01"
        "2024-03-01T10:00:00.000Z").sessions "2024-03-01"
      = some { userName := none, startTime := none, pointCount := 1,
               lastActivity := some "2024-03-01T10:00:00.000Z" } := by
  refine ⟨rfl, by decide⟩

/-- C9 amended: updateSessionPointCount is total (the source wraps the
body in try/catch, so it never throws).  When a session record exists it
increments pointCount by one and refreshes lastActivity, preserving the
other fields; when no record exists it does not no-op: it creates a
record with pointCount one and lastActivity set.  Other keys and the
user-name storage are untouched. -/
theorem updateSessionPointCount_behavior (us : UserStorage)
    (today nowIso : String) :
    (us.sessions today = none →
      (updateSessionPointCount us today nowIso).sessions today
        = some { userName := none, startTime := none, pointCount := 1,
                 lastActivity := some nowIso })
    ∧ (∀ d, us.sessions today = some d →
        (updateSessionPointCount us today nowIso).sessions today
          = some { userName := d.userName, startTime := d.startTime, pointCount := d.pointCount + 1, lastActivity := some nowIso })
    ∧ (∀ k, k ≠ today →
        (updateSessionPointCount us today nowIso).sessions k
          = us.sessions k)
    ∧ (updateSessionPointCount us today nowIso).userNames = us.userNames := by
  refine ⟨?_, ?_, ?_, rfl⟩
  · intro h
    simp [updateSessionPointCount, setKey, h]
  · intro d h
    simp [updateSessionPointCount, setKey, h]
  · intro k hk
    simp [updateSessionPointCount, setKey, hk]

/-- C9 amended witness: the existing-session case evaluated on a concrete
stored record. -/
theorem updateSessionPointCount_behavior_witness :
    ((storeUserName emptyUS "2024-03-01" "T0" "Alice").2.sessions "2024-03-01"
      = some { userName := some "Alice", startTime := some "T0",
               pointCount := 0, lastActivity := some "T0" })
    ∧ (updateSessionPointCount (storeUserName emptyUS "2024-03-01" "T0"
          "Alice").2 "2024-03-01" "T1").sessions "2024-03-01"
      = some { userName := some "Alice", startTime := some "T0",
               pointCount := 1, lastActivity := some "T1" } := by
  refine ⟨by decide, ?_⟩
  exact (updateSessionPointCount_behavior
    (storeUserName emptyUS "2024-03-01" "T0" "Alice").2 "2024-03-01"
    "T1").2.1 { userName := some "Alice", startTime := some "T0", pointCount := 0, lastActivity := some "T0" } (by decide)

/-- C10: storeUserName enforces no upper length bound: whenever the
trimmed input is non-empty — in particular for names longer than fifty
characters — it stores the trimmed name under the day-key, initializes
the session with pointCount zero and returns true; it returns false and
stores nothing exactly when the trimmed input is empty.  The one-to-fifty
limit exists only in the name-entry dialog validation. -/
theorem storeUserName_no_length_bound (us : UserStorage)
    (today nowIso name : String) :
    (jsTrim name = "" → storeUserName us today nowIso name = (false, us))
    ∧ (jsTrim name ≠ "" →
        (storeUserName us today nowIso name).1 = true
        ∧ (storeUserName us today nowIso name).2.userNames today
            = some (jsTrim name)
        ∧ (storeUserName us today nowIso name).2.sessions today
            = some { userName := some (jsTrim name), startTime := some nowIso,
                     pointCount := 0, lastActivity := some nowIso })
    ∧ ((jsTrim name).length > 50 → nameDialogConfirmDisabled name = true) := by
  refine ⟨?_, ?_, ?_⟩
  · intro h
    simp [storeUserName, h]
  · intro h
    refine ⟨?_, ?_, ?_⟩ <;> simp [storeUserName, h, setKey]
  · intro h
    simp [nameDialogConfirmDisabled]
    omega

/-- C10 witness: a fifty-one character name is rejected by the dialog
validation but accepted and stored by storeUserName. -/
theorem storeUserName_no_length_bound_witness :
    (jsTrim longName ≠ "")
    ∧ ((jsTrim longName).length > 50)
    ∧ nameDialogConfirmDisabled longName = true
    ∧ (storeUserName emptyUS "2024-03-01" "T" longName).1 = true
    ∧ (storeUserName emptyUS "2024-03-01" "T" longName).2.userNames
        "2024-03-01" = some (jsTrim longName) := by
  refine ⟨by decide, by decide, ?_, ?_, ?_⟩
  · exact (storeUserName_no_length_bound emptyUS "2024-03-01" "T"
      longName).2.2 (by decide)
  · exact ((storeUserName_no_length_bound emptyUS "2024-03-01" "T"
      longName).2.1 (by decide)).1
  · exact ((storeUserName_no_length_bound emptyUS "2024-03-01" "T"
      longName).2.1 (by decide)).2.1

end ForestMap
